import Mathlib

/-!
# Chaos League — verification of the match engine, RNG derivation and replay validator

Shallow embedding of the Python sources:
  * `src/engine/judge.py`       — `Move`, `MOVES`, `WIN_MAP`, `resolve_round`
  * `src/engine/match.py`       — `BUCKETS`, `deception_bucket`, `validate_move`, `run_match`
  * `src/engine/rng.py`         — `make_rng` (SHA-256 based seed derivation)
  * `src/engine/bot_runner.py`  — `safe_play`, `safe_shadow`, `DEFAULT_MOVE`
  * `src/engine/replay_validator.py` — seed initialisation and the per-round
    token bookkeeping of `validate_match_replay`

Python `int` is modelled by `Int` (token counters, scores) or `Nat`
(hash arithmetic, with explicit `% 2^32` where the source masks to 32 bits).
Python `float` draws in `[0,1)` and the rejection probability are modelled
by `ℚ`; only the order structure of the comparison `draw > prob` matters to
the claims.  Fallible Python code (raised `RuntimeError`s, failing
attribute/tuple accesses) is modelled with `Except String`.
-/

namespace ChaosLeague

/-! ## judge.py -/

/-- The five-element move set of `judge.py` (`class Move(Enum)`). -/
inductive Move where
  | ROCK
  | PAPER
  | SCISSORS
  | LIZARD
  | SPOCK
deriving DecidableEq, Repr, Fintype

/-- `MOVES = list(Move)` — enum order. -/
def MOVES : List Move :=
  [Move.ROCK, Move.PAPER, Move.SCISSORS, Move.LIZARD, Move.SPOCK]

/-- `.name` of a move, as the engine puts it into state dicts and logs. -/
def Move.name : Move → String
  | .ROCK => "ROCK"
  | .PAPER => "PAPER"
  | .SCISSORS => "SCISSORS"
  | .LIZARD => "LIZARD"
  | .SPOCK => "SPOCK"

/-- `WIN_MAP` of `judge.py`: the set of moves each move beats. -/
def WIN_MAP : Move → List Move
  | .ROCK => [Move.SCISSORS, Move.LIZARD]
  | .PAPER => [Move.ROCK, Move.SPOCK]
  | .SCISSORS => [Move.PAPER, Move.LIZARD]
  | .LIZARD => [Move.PAPER, Move.SPOCK]
  | .SPOCK => [Move.ROCK, Move.SCISSORS]

/-- `a` beats `b` iff `b ∈ WIN_MAP[a]`. -/
def beats (a b : Move) : Bool := b ∈ WIN_MAP a

/-- `resolve_round` of `judge.py`, with the unreachable `RuntimeError`
modelled as `Except.error`. -/
def resolve_round (move_a move_b : Move) : Except String (Int × Int) :=
  if move_a = move_b then .ok (0, 0)
  else if move_b ∈ WIN_MAP move_a then .ok (1, -1)
  else if move_a ∈ WIN_MAP move_b then .ok (-1, 1)
  else .error "Unresolvable move pair"

/-! ## match.py — deception buckets -/

/-- `BUCKETS` of `match.py`: descending `(name, threshold)` pairs. -/
def BUCKETS : List (String × Int) :=
  [("HIGH", 40), ("MEDIUM", 20), ("LOW", 1), ("EMPTY", 0)]

/-- `deception_bucket(tokens_left)`: the first bucket whose threshold
`tokens_left` meets, with the (unreachable for non-negative input)
fall-through returning `"EMPTY"`. -/
def deception_bucket (tokens_left : Int) : String :=
  match BUCKETS.find? (fun nt => decide (nt.2 ≤ tokens_left)) with
  | some nt => nt.1
  | none => "EMPTY"

/-! ## A small model of the Python values bots may hand back -/

/-- Untyped Python values appearing in bot outputs: a `Move` enum member,
`None`, a bool, an int, a string, or a 2-tuple `(bool, value)` as returned
by `request_shadow_move`. -/
inductive PyVal where
  | vMove (m : Move)
  | vNone
  | vBool (b : Bool)
  | vInt (n : Int)
  | vStr (s : String)
  | vPair (b : Bool) (v : PyVal)
deriving DecidableEq, Repr

/-- The raw return value of a bot `play` call: a dict (an association list
of string keys) or some non-dict value. -/
inductive PlayResult where
  | dict (entries : List (String × PyVal))
  | notDict (v : PyVal)
deriving DecidableEq, Repr

/-- Decidable equality of `Except` results, for concrete evaluation. -/
instance {ε α : Type} [DecidableEq ε] [DecidableEq α] : DecidableEq (Except ε α) :=
  fun x y =>
    match x, y with
    | .error e, .error f =>
      if h : e = f then isTrue (by rw [h])
      else isFalse fun hh => h (by cases hh; rfl)
    | .ok a, .ok b =>
      if h : a = b then isTrue (by rw [h])
      else isFalse fun hh => h (by cases hh; rfl)
    | .error _, .ok _ => isFalse fun hh => Except.noConfusion hh
    | .ok _, .error _ => isFalse fun hh => Except.noConfusion hh

/-- Key lookup in a Python dict literal (first binding wins). -/
def pyLookup (entries : List (String × PyVal)) (k : String) : Option PyVal :=
  (entries.find? (fun e => decide (e.1 = k))).map (fun e => e.2)

/-- Python `out.get(key, default)`: fine on a dict, raises
`AttributeError` on anything else. -/
def dict_get (out : PlayResult) (k : String) (d : PyVal) : Except String PyVal :=
  match out with
  | .dict entries => .ok ((pyLookup entries k).getD d)
  | .notDict _ => .error "AttributeError: object has no attribute get"

/-- Python truthiness, as used by `if shadow_a and tokens_a > 0`. -/
def truthy : PyVal → Bool
  | .vMove _ => true
  | .vNone => false
  | .vBool b => b
  | .vInt n => n ≠ 0
  | .vStr s => s ≠ ""
  | .vPair _ _ => true

/-- `validate_move` of `match.py`: raises unless the value is a `Move`
enum member (every `Move` constructor is in `MOVES`, so the second check
of the source never fires). -/
def validate_move (v : PyVal) : Except String Move :=
  match v with
  | .vMove m => if m ∈ MOVES then .ok m else .error "Invalid move value"
  | _ => .error "Invalid move type"

/-- Tuple unpacking `a, b = v` on a Python value: succeeds only on a
2-tuple, as in `shadow_req_a, shadow_move_a = safe_shadow(...)`. -/
def unpack_pair (v : PyVal) : Except String (Bool × PyVal) :=
  match v with
  | .vPair b w => .ok (b, w)
  | _ => .error "TypeError: cannot unpack"

/-! ## bot_runner.py -/

/-- `DEFAULT_MOVE = MOVES[0]`. -/
def DEFAULT_MOVE : Move := MOVES.get ⟨0, by decide⟩

/-- Possible fates of an externally supplied strategy call made through
the guard: it returns a value, raises, or exceeds the time budget.
(The subprocess/queue mechanics of `bot_runner.py` collapse to these
three observable outcomes.) -/
inductive CallOutcome (α : Type) where
  | ok (v : α)
  | raises
  | timesOut
deriving DecidableEq, Repr

/-- `safe_play` of `bot_runner.py`: the worker catches any exception and
queues `{"real_move": DEFAULT_MOVE}`; a timeout (or an empty queue) also
yields that default dict; a value that did arrive is returned unchecked. -/
def safe_play (outcome : CallOutcome PlayResult) : PlayResult :=
  match outcome with
  | .ok v => v
  | .raises => .dict [("real_move", .vMove DEFAULT_MOVE)]
  | .timesOut => .dict [("real_move", .vMove DEFAULT_MOVE)]

/-- `safe_shadow` of `bot_runner.py`: `(False, None)` on exception or
timeout, otherwise the bot's raw return value, unchecked. -/
def safe_shadow (outcome : CallOutcome PyVal) : PyVal :=
  match outcome with
  | .ok v => v
  | .raises => .vPair false .vNone
  | .timesOut => .vPair false .vNone

/-! ## rng.py — SHA-256 and `make_rng`

`make_rng` hashes `f"{name_a}|{name_b}|{SEED_SALT}"` with SHA-256,
interprets the hex digest as an integer, masks it to 32 bits and XORs it
with two distinct constants.  SHA-256 is implemented here over `Nat`
with explicit `% 2^32` masking (FIPS 180-4). -/

/-- `2^32`, the mask width of the seed reduction. -/
def M32 : Nat := 4294967296

/-- 32-bit right rotation on a `Nat` below `2^32`. -/
def rotr (x n : Nat) : Nat := ((x >>> n) ||| (x <<< (32 - n))) % M32

/-- SHA-256 `Ch`. -/
def shaCh (x y z : Nat) : Nat := (x &&& y) ^^^ ((x ^^^ (M32 - 1)) &&& z)

/-- SHA-256 `Maj`. -/
def shaMaj (x y z : Nat) : Nat := (x &&& y) ^^^ (x &&& z) ^^^ (y &&& z)

/-- SHA-256 `Σ₀`. -/
def bigSigma0 (x : Nat) : Nat := rotr x 2 ^^^ rotr x 13 ^^^ rotr x 22

/-- SHA-256 `Σ₁`. -/
def bigSigma1 (x : Nat) : Nat := rotr x 6 ^^^ rotr x 11 ^^^ rotr x 25

/-- SHA-256 `σ₀`. -/
def smallSigma0 (x : Nat) : Nat := rotr x 7 ^^^ rotr x 18 ^^^ (x >>> 3)

/-- SHA-256 `σ₁`. -/
def smallSigma1 (x : Nat) : Nat := rotr x 17 ^^^ rotr x 19 ^^^ (x >>> 10)

/-- The 64 SHA-256 round constants (FIPS 180-4 §4.2.2, written in
decimal: 0x428a2f98 = 1116352408, …, 0xc67178f2 = 3329325298). -/
def shaK : List Nat :=
  [1116352408, 1899447441, 3049323471, 3921009573, 961987163, 1508970993,
   2453635748, 2870763221, 3624381080, 310598401, 607225278, 1426881987,
   1925078388, 2162078206, 2614888103, 3248222580, 3835390401, 4022224774,
   264347078, 604807628, 770255983, 1249150122, 1555081692, 1996064986,
   2554220882, 2821834349, 2952996808, 3210313671, 3336571891, 3584528711,
   113926993, 338241895, 666307205, 773529912, 1294757372, 1396182291,
   1695183700, 1986661051, 2177026350, 2456956037, 2730485921, 2820302411,
   3259730800, 3345764771, 3516065817, 3600352804, 4094571909, 275423344,
   430227734, 506948616, 659060556, 883997877, 958139571, 1322822218,
   1537002063, 1747873779, 1955562222, 2024104815, 2227730452, 2361852424,
   2428436474, 2756734187, 3204031479, 3329325298]

/-- The SHA-256 initial hash value (FIPS 180-4 §5.3.3, in decimal:
0x6a09e667 = 1779033703, …, 0x5be0cd19 = 1541459225). -/
def shaH0 : List Nat :=
  [1779033703, 3144134277, 1013904242, 2773480762,
   1359893119, 2600822924, 528734635, 1541459225]

/-- Group a byte list into big-endian 32-bit words. -/
def bytesToWords : List Nat → List Nat
  | b0 :: b1 :: b2 :: b3 :: rest =>
      (b0 <<< 24 ||| b1 <<< 16 ||| b2 <<< 8 ||| b3) :: bytesToWords rest
  | _ => []

/-- Extend the 16-word message block to the 64-word schedule. -/
def extendSchedule (w : Array Nat) : Nat → Array Nat
  | 0 => w
  | n + 1 =>
      let i := w.size
      let next := (smallSigma1 (w.getD (i - 2) 0) + w.getD (i - 7) 0 +
                   smallSigma0 (w.getD (i - 15) 0) + w.getD (i - 16) 0) % M32
      extendSchedule (w.push next) n

/-- The eight working variables of a SHA-256 compression. -/
structure ShaState where
  a : Nat
  b : Nat
  c : Nat
  d : Nat
  e : Nat
  f : Nat
  g : Nat
  h : Nat
deriving Repr, DecidableEq

/-- One SHA-256 round with round constant `k` and schedule word `w`. -/
def shaRound (st : ShaState) (kw : Nat × Nat) : ShaState :=
  let t1 := (st.h + bigSigma1 st.e + shaCh st.e st.f st.g + kw.1 + kw.2) % M32
  let t2 := (bigSigma0 st.a + shaMaj st.a st.b st.c) % M32
  { a := (t1 + t2) % M32, b := st.a, c := st.b, d := st.c,
    e := (st.d + t1) % M32, f := st.e, g := st.f, h := st.g }

/-- Compress one 64-byte block into the chaining hash (8 words). -/
def shaCompress (hs : List Nat) (block : List Nat) : List Nat :=
  let w := extendSchedule (Array.mk (bytesToWords block)) 48
  let init : ShaState :=
    { a := hs.getD 0 0, b := hs.getD 1 0, c := hs.getD 2 0, d := hs.getD 3 0,
      e := hs.getD 4 0, f := hs.getD 5 0, g := hs.getD 6 0, h := hs.getD 7 0 }
  let st := (shaK.zip w.toList).foldl shaRound init
  [(hs.getD 0 0 + st.a) % M32, (hs.getD 1 0 + st.b) % M32,
   (hs.getD 2 0 + st.c) % M32, (hs.getD 3 0 + st.d) % M32,
   (hs.getD 4 0 + st.e) % M32, (hs.getD 5 0 + st.f) % M32,
   (hs.getD 6 0 + st.g) % M32, (hs.getD 7 0 + st.h) % M32]

/-- SHA-256 padding: append `0x80`, zeros, and the 64-bit big-endian bit
length, reaching a multiple of 64 bytes. -/
def shaPad (msg : List Nat) : List Nat :=
  let L := msg.length
  let bitLen := 8 * L
  let zeros := (119 - L % 64) % 64
  let lenBytes := (List.range 8).map (fun i => (bitLen >>> (8 * (7 - i))) % 256)
  msg ++ [0x80] ++ List.replicate zeros 0 ++ lenBytes

/-- Split a list into 64-byte chunks (fuel-driven, fuel ≥ length). -/
def chunks64 : Nat → List Nat → List (List Nat)
  | 0, _ => []
  | _ + 1, [] => []
  | fuel + 1, l => l.take 64 :: chunks64 fuel (l.drop 64)

/-- SHA-256 of a byte list, as the 256-bit digest integer (the value of
Python's `int(hexdigest, 16)`). -/
def sha256 (msg : List Nat) : Nat :=
  let padded := shaPad msg
  let final := (chunks64 padded.length padded).foldl shaCompress shaH0
  final.foldl (fun acc w => acc * M32 + w) 0

/-- UTF-8 encoding of one character (Python `str.encode()`). -/
def utf8Char (c : Char) : List Nat :=
  let n := c.toNat
  if n < 0x80 then [n]
  else if n < 0x800 then [0xC0 + n / 64, 0x80 + n % 64]
  else if n < 0x10000 then [0xE0 + n / 4096, 0x80 + n / 64 % 64, 0x80 + n % 64]
  else [0xF0 + n / 262144, 0x80 + n / 4096 % 64, 0x80 + n / 64 % 64, 0x80 + n % 64]

/-- UTF-8 bytes of a string. -/
def strBytes (s : String) : List Nat := (s.data.map utf8Char).flatten

/-- `SEED_SALT` from `config.py`. -/
def SEED_SALT : String := "CHAOS_LEAGUE_2026"

/-- The 32-bit base seed of `make_rng`:
`int(sha256(f"{name_a}|{name_b}|{salt}").hexdigest(), 16) % 2**32`,
parametrised over the salt. -/
def seedOfSalted (salt name_a name_b : String) : Nat :=
  sha256 (strBytes (name_a ++ "|" ++ name_b ++ "|" ++ salt)) % M32

/-- `make_rng` seed derivation, parametrised over the salt: the two
sub-seeds handed to `random.Random` (each `random.Random(s)` stream is a
pure function of its seed `s`). -/
def make_rng_salted (salt name_a name_b : String) : Nat × Nat :=
  let seed := seedOfSalted salt name_a name_b
  (seed ^^^ 0xA5A5A5A5, seed ^^^ 0x5A5A5A5A)

/-- `make_rng(name_a, name_b)` of `rng.py`, using the global `SEED_SALT`. -/
def make_rng (name_a name_b : String) : Nat × Nat :=
  make_rng_salted SEED_SALT name_a name_b

/-! ## match.py — the match loop

`config.py` values: -/

/-- `ROUNDS` from `config.py`. -/
def ROUNDS : Nat := 10000

/-- `DECEPTION_TOKENS` from `config.py`. -/
def DECEPTION_TOKENS : Int := 50

/-- `SHADOW_REJECT_PROB` from `config.py` (the float `0.10`, modelled by
the rational it denotes; only the comparison against draws matters). -/
def SHADOW_REJECT_PROB : ℚ := 1 / 10

/-- The state dict built for one side each round (`state_a` / `state_b`
in `run_match`): round index, opponent's last visible move name,
own last real move name, opponent's deception bucket label. -/
structure StateView where
  round : Nat
  opponent_last_visible : Option String
  self_last_real : Option String
  opponent_deception_bucket : String
deriving DecidableEq, Repr

/-- One side's half of the engine's mutable match state, plus the cursor
into that side's RNG stream (the number of uniform draws the engine has
consumed from it; bots run in a subprocess on a pickled copy of the RNG,
so their draws never advance the engine's stream). -/
structure SideState where
  score : Int
  tokens : Int
  used : Int
  lastReal : Option Move
  lastVisible : Option Move
  cursor : Nat
deriving DecidableEq, Repr

/-- The initial per-side state of `run_match`. -/
def initSide : SideState :=
  { score := 0, tokens := DECEPTION_TOKENS, used := 0,
    lastReal := none, lastVisible := none, cursor := 0 }

/-- The state view `run_match` builds for side A at round `i` (side B's
view is the mirror image, built by the same code with the sides swapped). -/
def state_for_A (i : Nat) (sa sb : SideState) : StateView :=
  { round := i,
    opponent_last_visible := sb.lastVisible.map Move.name,
    self_last_real := sa.lastReal.map Move.name,
    opponent_deception_bucket := deception_bucket sb.tokens }

/-- The state view `run_match` builds for side B at round `i`. -/
def state_for_B (i : Nat) (sa sb : SideState) : StateView :=
  { round := i,
    opponent_last_visible := sa.lastVisible.map Move.name,
    self_last_real := sb.lastReal.map Move.name,
    opponent_deception_bucket := deception_bucket sa.tokens }

/-- Result of one side's shadow gate. -/
structure GateOut where
  visible : Move
  tokens : Int
  used : Int
  flag : Bool
  cursor : Nat
deriving DecidableEq, Repr

/-- The shadow gate of `run_match` for one side:

```
if shadow_req and tokens > 0 and shadow_move is not None:
    if rng.random() > SHADOW_REJECT_PROB:
        validate_move(shadow_move)
        visible = shadow_move; tokens -= 1; used += 1; flag = True
```

`stream` is the side's RNG stream (`rng.random()` reads `stream cursor`
and advances the cursor).  The draw is consumed exactly when the outer
condition holds; `validate_move` may raise after the draw. -/
def shadow_gate (p : ℚ) (stream : Nat → ℚ) (req : Bool) (mv : PyVal)
    (real : Move) (tokens used : Int) (cursor : Nat) : Except String GateOut :=
  if req = true ∧ 0 < tokens ∧ mv ≠ PyVal.vNone then
    if p < stream cursor then
      match validate_move mv with
      | .error e => .error e
      | .ok m => .ok ⟨m, tokens - 1, used + 1, true, cursor + 1⟩
    else .ok ⟨real, tokens, used, false, cursor + 1⟩
  else .ok ⟨real, tokens, used, false, cursor⟩

/-- The immutable per-round record `run_match` logs: real and visible
moves, shadow flags, and the post-round bucket labels of both sides. -/
structure RoundRecord where
  round : Nat
  aReal : Move
  bReal : Move
  aVisible : Move
  bVisible : Move
  aShadow : Bool
  bShadow : Bool
  aBucket : String
  bBucket : String
deriving DecidableEq, Repr

/-- A strategy, as the engine sees it: given the state view, its `play`
and `request_shadow_move` calls each end in one of the three guard
outcomes.  (Each call runs in a fresh subprocess, so a bot's output is a
function of the state view it is shown.) -/
structure BotSpec where
  play : StateView → CallOutcome PlayResult
  shadow : StateView → CallOutcome PyVal

/-- The body of `run_match`'s round loop at round `i`: build both state
views, obtain both real moves through `safe_play` (`out.get("real_move",
MOVES[0])` then `validate_move`), obtain both shadow requests through
`safe_shadow`, run both shadow gates, resolve the round on the two real
moves, and assemble the successor states and the round record. -/
def round_step (p : ℚ) (streamA streamB : Nat → ℚ) (botA botB : BotSpec)
    (i : Nat) (sa sb : SideState) :
    Except String (SideState × SideState × RoundRecord) := do
  let stateA := state_for_A i sa sb
  let stateB := state_for_B i sa sb
  let outA := safe_play (botA.play stateA)
  let outB := safe_play (botB.play stateB)
  let rvA ← dict_get outA "real_move" (.vMove DEFAULT_MOVE)
  let rvB ← dict_get outB "real_move" (.vMove DEFAULT_MOVE)
  let realA ← validate_move rvA
  let realB ← validate_move rvB
  let prA ← unpack_pair (safe_shadow (botA.shadow stateA))
  let prB ← unpack_pair (safe_shadow (botB.shadow stateB))
  let gA ← shadow_gate p streamA prA.1 prA.2 realA sa.tokens sa.used sa.cursor
  let gB ← shadow_gate p streamB prB.1 prB.2 realB sb.tokens sb.used sb.cursor
  let d ← resolve_round realA realB
  let sa2 : SideState :=
    { score := sa.score + d.1, tokens := gA.tokens, used := gA.used,
      lastReal := some realA, lastVisible := some gA.visible, cursor := gA.cursor }
  let sb2 : SideState :=
    { score := sb.score + d.2, tokens := gB.tokens, used := gB.used,
      lastReal := some realB, lastVisible := some gB.visible, cursor := gB.cursor }
  let record : RoundRecord :=
    { round := i, aReal := realA, bReal := realB,
      aVisible := gA.visible, bVisible := gB.visible,
      aShadow := gA.flag, bShadow := gB.flag,
      aBucket := deception_bucket gA.tokens,
      bBucket := deception_bucket gB.tokens }
  return (sa2, sb2, record)

/-- `n` successive rounds starting at round index `i`: the loop
`for round_idx in range(1, ROUNDS + 1)` of `run_match`. -/
def run_rounds (p : ℚ) (streamA streamB : Nat → ℚ) (botA botB : BotSpec) :
    Nat → Nat → SideState → SideState →
    Except String (SideState × SideState × List RoundRecord)
  | 0, _, sa, sb => .ok (sa, sb, [])
  | n + 1, i, sa, sb => do
    let step ← round_step p streamA streamB botA botB i sa sb
    let rest ← run_rounds p streamA streamB botA botB n (i + 1) step.1 step.2.1
    return (rest.1, rest.2.1, step.2.2 :: rest.2.2)

/-- Outcome of a completed match: both final side states and the logged
round records. -/
structure MatchResult where
  finalA : SideState
  finalB : SideState
  records : List RoundRecord
deriving Repr

/-- `run_match` over `R` rounds: both sides start with the configured
token budget, empty history, and a fresh stream cursor. -/
def run_match (p : ℚ) (streamA streamB : Nat → ℚ) (R : Nat)
    (botA botB : BotSpec) : Except String MatchResult :=
  match run_rounds p streamA streamB botA botB R 1 initSide initSide with
  | .error e => .error e
  | .ok (sa, sb, records) => .ok ⟨sa, sb, records⟩

/-! ## replay_validator.py -/

/-- One line of `rounds.jsonl`, as `validate_match_replay` reads it. -/
structure LogEntry where
  bot_a : String
  bot_b : String
  a_real : String
  b_real : String
  a_visible : String
  b_visible : String
  a_shadow : Bool
  b_shadow : Bool
  a_bucket : String
  b_bucket : String
deriving DecidableEq, Repr

/-- `Move[name]` lookup (`_move_from_name`), raising on unknown names. -/
def move_from_name (s : String) : Except String Move :=
  match MOVES.find? (fun m => decide (m.name = s)) with
  | some m => .ok m
  | none => .error "Invalid move name in log"

/-- The `replay_meta` dict `run_match` writes to
`metadata/replay_{a}_vs_{b}.json` — note that it carries **no** `"seed"`
key. -/
def replay_meta_of (nameA nameB : String) (scoreA scoreB usedA usedB : Int)
    (roundsLog : String) : List (String × PyVal) :=
  [("bot_a", .vStr nameA), ("bot_b", .vStr nameB),
   ("score_a", .vInt scoreA), ("score_b", .vInt scoreB),
   ("tokens_used_a", .vInt usedA), ("tokens_used_b", .vInt usedB),
   ("rounds_log", .vStr roundsLog)]

/-- Python `str()` of the values that can appear as a metadata seed. -/
def pyStrOf : PyVal → String
  | .vInt n => toString n
  | .vStr s => s
  | .vBool b => if b then "True" else "False"
  | .vNone => "None"
  | .vMove m => m.name
  | .vPair _ _ => "(...)"

/-- The seed strings `validate_match_replay` feeds to `random.Random`:
`seed = metadata.get("seed", 42)`, then `f"{seed}_a"` and `f"{seed}_b"`. -/
def replay_seed_strings (metadata : List (String × PyVal)) : String × String :=
  let seed := (pyLookup metadata "seed").getD (.vInt 42)
  (pyStrOf seed ++ "_a", pyStrOf seed ++ "_b")

/-- The per-round core of `validate_match_replay`: convert the logged
moves, compare the replayed real moves against the log, then perform the
token bookkeeping

```
shadow_a = out_a.get("shadow", False)
if shadow_a and tokens_a > 0: tokens_a -= 1
```

driven by the **replayed play outputs** `outA`/`outB`.  Returns the
updated token counters. -/
def replay_round (entry : LogEntry) (outA outB : PlayResult)
    (tokensA tokensB : Int) : Except String (Int × Int) := do
  let loggedRealA ← move_from_name entry.a_real
  let loggedRealB ← move_from_name entry.b_real
  let _ ← move_from_name entry.a_visible
  let _ ← move_from_name entry.b_visible
  let rvA ← dict_get outA "real_move" .vNone
  let rvB ← dict_get outB "real_move" .vNone
  let realA ← match rvA with
    | .vMove m => Except.ok m
    | _ => Except.error "Bot returned invalid move type"
  let realB ← match rvB with
    | .vMove m => Except.ok m
    | _ => Except.error "Bot returned invalid move type"
  if realA ≠ loggedRealA then
    Except.error "Replay mismatch"
  else if realB ≠ loggedRealB then
    Except.error "Replay mismatch"
  else do
    let svA ← dict_get outA "shadow" (.vBool false)
    let svB ← dict_get outB "shadow" (.vBool false)
    let tokensA2 := if truthy svA = true ∧ 0 < tokensA then tokensA - 1 else tokensA
    let tokensB2 := if truthy svB = true ∧ 0 < tokensB then tokensB - 1 else tokensB
    return (tokensA2, tokensB2)

/-- A strategy whose move production never returns within budget (and
whose shadow request also times out): every guarded call times out. -/
def timeoutBot : BotSpec := ⟨fun _ => .timesOut, fun _ => .timesOut⟩

/-- A strategy whose `play` returns an empty dict — in particular a dict
lacking the `"real_move"` key — and never requests a shadow. -/
def noKeyBot : BotSpec := ⟨fun _ => .ok (.dict []), fun _ => .ok (.vPair false .vNone)⟩

/-! ## Helper lemmas -/

/-- Inversion for `Except` bind. -/
theorem except_bind_ok {α β : Type} {x : Except String α}
    {f : α → Except String β} {b : β}
    (h : x >>= f = .ok b) : ∃ a, x = .ok a ∧ f a = .ok b := by
  cases x with
  | error e => simp [Bind.bind, Except.bind] at h
  | ok a => exact ⟨a, rfl, by simpa [Bind.bind, Except.bind] using h⟩

/-- Full case analysis of a successful shadow gate. -/
theorem shadow_gate_ok_cases {p : ℚ} {stream : Nat → ℚ} {req : Bool}
    {mv : PyVal} {real : Move} {t u : Int} {c : Nat} {g : GateOut}
    (h : shadow_gate p stream req mv real t u c = .ok g) :
    (¬(req = true ∧ 0 < t ∧ mv ≠ PyVal.vNone) ∧ g = ⟨real, t, u, false, c⟩)
    ∨ ((req = true ∧ 0 < t ∧ mv ≠ PyVal.vNone) ∧ ¬ p < stream c ∧
        g = ⟨real, t, u, false, c + 1⟩)
    ∨ ((req = true ∧ 0 < t ∧ mv ≠ PyVal.vNone) ∧ p < stream c ∧
        ∃ m, validate_move mv = .ok m ∧ g = ⟨m, t - 1, u + 1, true, c + 1⟩) := by
  unfold shadow_gate at h
  by_cases hc : req = true ∧ 0 < t ∧ mv ≠ PyVal.vNone
  · rw [if_pos hc] at h
    by_cases hp : p < stream c
    · rw [if_pos hp] at h
      cases hv : validate_move mv with
      | error e => rw [hv] at h; exact absurd h (by simp)
      | ok m =>
        rw [hv] at h
        exact Or.inr (Or.inr ⟨hc, hp, m, rfl, (Except.ok.injEq _ _).mp h.symm⟩)
    · rw [if_neg hp] at h
      exact Or.inr (Or.inl ⟨hc, hp, (Except.ok.injEq _ _).mp h.symm⟩)
  · rw [if_neg hc] at h
    exact Or.inl ⟨hc, (Except.ok.injEq _ _).mp h.symm⟩

/-- The token/flag/cursor consequences of a successful shadow gate used
by the invariant claims. -/
theorem shadow_gate_ok_spec {p : ℚ} {stream : Nat → ℚ} {req : Bool}
    {mv : PyVal} {real : Move} {t u : Int} {c : Nat} {g : GateOut}
    (h : shadow_gate p stream req mv real t u c = .ok g) :
    (g.cursor = c + 1 ↔ (req = true ∧ 0 < t ∧ mv ≠ PyVal.vNone))
    ∧ (g.flag = true → 0 < t ∧ g.tokens = t - 1)
    ∧ (g.flag = false → g.tokens = t)
    ∧ g.tokens ≤ t ∧ (0 ≤ t → 0 ≤ g.tokens) := by
  rcases shadow_gate_ok_cases h with ⟨hc, rfl⟩ | ⟨hc, _, rfl⟩ | ⟨hc, _, m, _, rfl⟩
  · exact ⟨by simp [hc], by simp, fun _ => rfl, le_refl _, fun h0 => h0⟩
  · exact ⟨by simp [hc], by simp, fun _ => rfl, le_refl _, fun h0 => h0⟩
  · refine ⟨by simp [hc], fun _ => ⟨hc.2.1, rfl⟩, by simp, ?_, ?_⟩
    · have := hc.2.1; dsimp only; omega
    · intro h0; have := hc.2.1; dsimp only; omega

/-- Inversion of a successful `round_step`: the values flowing through
the loop body and how the outputs are assembled from them. -/
theorem round_step_ok_inv {p : ℚ} {sA sB : Nat → ℚ} {botA botB : BotSpec}
    {i : Nat} {sa sb : SideState} {out : SideState × SideState × RoundRecord}
    (h : round_step p sA sB botA botB i sa sb = .ok out) :
    ∃ rvA rvB realA realB prA prB gA gB d,
      dict_get (safe_play (botA.play (state_for_A i sa sb))) "real_move"
        (.vMove DEFAULT_MOVE) = .ok rvA ∧
      dict_get (safe_play (botB.play (state_for_B i sa sb))) "real_move"
        (.vMove DEFAULT_MOVE) = .ok rvB ∧
      validate_move rvA = .ok realA ∧
      validate_move rvB = .ok realB ∧
      unpack_pair (safe_shadow (botA.shadow (state_for_A i sa sb))) = .ok prA ∧
      unpack_pair (safe_shadow (botB.shadow (state_for_B i sa sb))) = .ok prB ∧
      shadow_gate p sA (Prod.fst prA) (Prod.snd prA) realA sa.tokens sa.used
        sa.cursor = .ok gA ∧
      shadow_gate p sB (Prod.fst prB) (Prod.snd prB) realB sb.tokens sb.used
        sb.cursor = .ok gB ∧
      resolve_round realA realB = .ok d ∧
      out = (⟨sa.score + d.1, gA.tokens, gA.used, some realA, some gA.visible,
              gA.cursor⟩,
             ⟨sb.score + d.2, gB.tokens, gB.used, some realB, some gB.visible,
              gB.cursor⟩,
             ⟨i, realA, realB, gA.visible, gB.visible, gA.flag, gB.flag,
              deception_bucket gA.tokens, deception_bucket gB.tokens⟩) := by
  unfold round_step at h
  obtain ⟨rvA, h1, h⟩ := except_bind_ok h
  obtain ⟨rvB, h2, h⟩ := except_bind_ok h
  obtain ⟨realA, h3, h⟩ := except_bind_ok h
  obtain ⟨realB, h4, h⟩ := except_bind_ok h
  obtain ⟨prA, h5, h⟩ := except_bind_ok h
  obtain ⟨prB, h6, h⟩ := except_bind_ok h
  obtain ⟨gA, h7, h⟩ := except_bind_ok h
  obtain ⟨gB, h8, h⟩ := except_bind_ok h
  obtain ⟨d, h9, h⟩ := except_bind_ok h
  simp only [pure, Except.pure, Except.ok.injEq] at h
  exact ⟨rvA, rvB, realA, realB, prA, prB, gA, gB, d,
    h1, h2, h3, h4, h5, h6, h7, h8, h9, h.symm⟩

/-- Token monotonicity and non-negativity over any number of rounds. -/
theorem run_rounds_tokens {p : ℚ} {sA sB : Nat → ℚ} {botA botB : BotSpec} :
    ∀ n i (sa sb : SideState) out,
      run_rounds p sA sB botA botB n i sa sb = .ok out →
      out.1.tokens ≤ sa.tokens ∧ (0 ≤ sa.tokens → 0 ≤ out.1.tokens) ∧
      out.2.1.tokens ≤ sb.tokens ∧ (0 ≤ sb.tokens → 0 ≤ out.2.1.tokens) := by
  intro n
  induction n with
  | zero =>
    intro i sa sb out h
    simp only [run_rounds, Except.ok.injEq] at h
    subst h
    exact ⟨le_refl _, fun h0 => h0, le_refl _, fun h0 => h0⟩
  | succ n ih =>
    intro i sa sb out h
    simp only [run_rounds] at h
    obtain ⟨step, hstep, h⟩ := except_bind_ok h
    obtain ⟨rest, hrest, h⟩ := except_bind_ok h
    simp only [pure, Except.pure, Except.ok.injEq] at h
    subst h
    obtain ⟨_, _, _, _, _, _, gA, gB, d, _, _, _, _, _, _, h7, h8, _, hout⟩ :=
      round_step_ok_inv hstep
    have specA := shadow_gate_ok_spec h7
    have specB := shadow_gate_ok_spec h8
    have ihres := ih (i + 1) step.1 step.2.1 rest hrest
    have hstep1 : step.1.tokens = gA.tokens := by rw [hout]
    have hstep2 : step.2.1.tokens = gB.tokens := by rw [hout]
    refine ⟨?_, ?_, ?_, ?_⟩
    · exact le_trans ihres.1 (by rw [hstep1]; exact specA.2.2.2.1)
    · intro h0
      exact ihres.2.1 (by rw [hstep1]; exact specA.2.2.2.2 h0)
    · exact le_trans ihres.2.2.1 (by rw [hstep2]; exact specB.2.2.2.1)
    · intro h0
      exact ihres.2.2.2 (by rw [hstep2]; exact specB.2.2.2.2 h0)

/-- A round between two strategies whose guarded play yields the default
real move and whose guarded shadow request yields `(False, None)`:
the round is a scored draw on `DEFAULT_MOVE`, no gate fires, no token
moves, no stream draw is consumed. -/
theorem round_step_default {p : ℚ} {sA sB : Nat → ℚ} {botA botB : BotSpec}
    (hA1 : ∀ st, dict_get (safe_play (botA.play st)) "real_move"
      (.vMove DEFAULT_MOVE) = .ok (.vMove DEFAULT_MOVE))
    (hA2 : ∀ st, unpack_pair (safe_shadow (botA.shadow st)) = .ok (false, .vNone))
    (hB1 : ∀ st, dict_get (safe_play (botB.play st)) "real_move"
      (.vMove DEFAULT_MOVE) = .ok (.vMove DEFAULT_MOVE))
    (hB2 : ∀ st, unpack_pair (safe_shadow (botB.shadow st)) = .ok (false, .vNone))
    (i : Nat) (sa sb : SideState) :
    round_step p sA sB botA botB i sa sb = .ok
      (⟨sa.score, sa.tokens, sa.used, some DEFAULT_MOVE, some DEFAULT_MOVE,
        sa.cursor⟩,
       ⟨sb.score, sb.tokens, sb.used, some DEFAULT_MOVE, some DEFAULT_MOVE,
        sb.cursor⟩,
       ⟨i, DEFAULT_MOVE, DEFAULT_MOVE, DEFAULT_MOVE, DEFAULT_MOVE, false, false,
        deception_bucket sa.tokens, deception_bucket sb.tokens⟩) := by
  simp only [round_step]
  rw [hA1, hB1, hA2, hB2]
  simp [Bind.bind, Except.bind, validate_move, DEFAULT_MOVE, MOVES,
    shadow_gate, resolve_round, pure, Except.pure]

/-- Any number of rounds between two such default-producing strategies
completes, producing one record per round, every real move the default,
and unchanged scores. -/
theorem run_rounds_default (p : ℚ) (sA sB : Nat → ℚ) (botA botB : BotSpec)
    (hA1 : ∀ st, dict_get (safe_play (botA.play st)) "real_move"
      (.vMove DEFAULT_MOVE) = .ok (.vMove DEFAULT_MOVE))
    (hA2 : ∀ st, unpack_pair (safe_shadow (botA.shadow st)) = .ok (false, .vNone))
    (hB1 : ∀ st, dict_get (safe_play (botB.play st)) "real_move"
      (.vMove DEFAULT_MOVE) = .ok (.vMove DEFAULT_MOVE))
    (hB2 : ∀ st, unpack_pair (safe_shadow (botB.shadow st)) = .ok (false, .vNone)) :
    ∀ n i (sa sb : SideState), ∃ saF sbF recs,
      run_rounds p sA sB botA botB n i sa sb = .ok (saF, sbF, recs) ∧
      recs.length = n ∧ saF.score = sa.score ∧ sbF.score = sb.score ∧
      ∀ r ∈ recs, r.aReal = DEFAULT_MOVE ∧ r.bReal = DEFAULT_MOVE := by
  intro n
  induction n with
  | zero =>
    intro i sa sb
    exact ⟨sa, sb, [], rfl, rfl, rfl, rfl, by simp⟩
  | succ n ih =>
    intro i sa sb
    obtain ⟨saF, sbF, recs, hrun, hlen, hsaF, hsbF, hall⟩ :=
      ih (i + 1)
        ⟨sa.score, sa.tokens, sa.used, some DEFAULT_MOVE, some DEFAULT_MOVE,
          sa.cursor⟩
        ⟨sb.score, sb.tokens, sb.used, some DEFAULT_MOVE, some DEFAULT_MOVE,
          sb.cursor⟩
    refine ⟨saF, sbF,
      ⟨i, DEFAULT_MOVE, DEFAULT_MOVE, DEFAULT_MOVE, DEFAULT_MOVE, false, false,
        deception_bucket sa.tokens, deception_bucket sb.tokens⟩ :: recs,
      ?_, by simp [hlen], hsaF, hsbF, ?_⟩
    · simp only [run_rounds]
      rw [round_step_default hA1 hA2 hB1 hB2 i sa sb]
      simp [Bind.bind, Except.bind, hrun, pure, Except.pure]
    · intro r hr
      rcases List.mem_cons.mp hr with hr | hr
      · subst hr; exact ⟨rfl, rfl⟩
      · exact hall r hr

/-! ## Claim theorems -/

/-- C5: for every move `m`, `resolve_round(m, m) = (0, 0)`; for every
ordered pair `(a, b)` with `a ≠ b`, exactly one of "`a` beats `b`" or
"`b` beats `a`" holds under `WIN_MAP`, `resolve_round(a, b)` returns
`(+1, -1)` when `a` beats `b` and `(-1, +1)` when `b` beats `a`, and the
deltas of `(a, b)` and `(b, a)` are opposite-sign and zero-sum. -/
theorem C5_resolver_diagonal_and_antisymmetry :
    (∀ m : Move, resolve_round m m = .ok (0, 0)) ∧
    (∀ a b : Move, a ≠ b →
      (beats a b = true ∧ beats b a = false ∧
        resolve_round a b = .ok (1, -1) ∧ resolve_round b a = .ok (-1, 1)) ∨
      (beats b a = true ∧ beats a b = false ∧
        resolve_round a b = .ok (-1, 1) ∧ resolve_round b a = .ok (1, -1))) := by
  decide

/-- Witness for C5 at the concrete pair `(ROCK, SCISSORS)`. -/
theorem C5_witness :
    (beats Move.ROCK Move.SCISSORS = true ∧ beats Move.SCISSORS Move.ROCK = false ∧
      resolve_round Move.ROCK Move.SCISSORS = .ok (1, -1) ∧
      resolve_round Move.SCISSORS Move.ROCK = .ok (-1, 1)) ∨
    (beats Move.SCISSORS Move.ROCK = true ∧ beats Move.ROCK Move.SCISSORS = false ∧
      resolve_round Move.ROCK Move.SCISSORS = .ok (-1, 1) ∧
      resolve_round Move.SCISSORS Move.ROCK = .ok (1, -1)) :=
  C5_resolver_diagonal_and_antisymmetry.2 Move.ROCK Move.SCISSORS (by decide)

/-- C9: `deception_bucket` maps each non-negative token count to the
label of the first descending threshold `(HIGH, 40)`, `(MEDIUM, 20)`,
`(LOW, 1)`, `(EMPTY, 0)` it meets; in particular 50 ↦ HIGH, 39 ↦ MEDIUM,
15 ↦ LOW, 0 ↦ EMPTY. -/
theorem C9_bucket_thresholds :
    deception_bucket 50 = "HIGH" ∧ deception_bucket 39 = "MEDIUM" ∧
    deception_bucket 15 = "LOW" ∧ deception_bucket 0 = "EMPTY" ∧
    ∀ t : Int, 0 ≤ t →
      deception_bucket t =
        (if 40 ≤ t then "HIGH" else if 20 ≤ t then "MEDIUM"
         else if 1 ≤ t then "LOW" else "EMPTY") := by
  refine ⟨rfl, rfl, rfl, rfl, ?_⟩
  intro t ht
  simp only [deception_bucket, BUCKETS, List.find?]
  by_cases h40 : (40 : Int) ≤ t
  · simp [h40]
  · by_cases h20 : (20 : Int) ≤ t
    · simp [h40, h20]
    · by_cases h1 : (1 : Int) ≤ t
      · simp [h40, h20, h1]
      · simp [h40, h20, h1, ht]

/-- Witness for C9 at `tokens_left = 39`. -/
theorem C9_witness :
    deception_bucket 39 =
      (if (40 : Int) ≤ 39 then "HIGH" else if (20 : Int) ≤ 39 then "MEDIUM"
       else if (1 : Int) ≤ 39 then "LOW" else "EMPTY") :=
  C9_bucket_thresholds.2.2.2.2 39 (by decide)

/-- C4: the stream derivation combines the ordered triple
`(name_a, name_b, salt)` through SHA-256 (`seed_str = name_a|name_b|salt`),
reduces the digest to a 32-bit seed, masks the seed with the two distinct
XOR constants `0xA5A5A5A5` and `0x5A5A5A5A`, the two resulting sub-seeds
are always distinct 32-bit values, and two calls on identical inputs
yield identical (hence bit-identical downstream) stream seeds. -/
theorem C4_stream_derivation_scheme (salt a b : String) :
    make_rng_salted salt a b =
      (seedOfSalted salt a b ^^^ 0xA5A5A5A5, seedOfSalted salt a b ^^^ 0x5A5A5A5A) ∧
    seedOfSalted salt a b =
      sha256 (strBytes (a ++ "|" ++ b ++ "|" ++ salt)) % 2 ^ 32 ∧
    (make_rng_salted salt a b).1 < 2 ^ 32 ∧
    (make_rng_salted salt a b).2 < 2 ^ 32 ∧
    (make_rng_salted salt a b).1 ≠ (make_rng_salted salt a b).2 ∧
    make_rng a b = make_rng_salted SEED_SALT a b ∧
    ∀ salt2 a2 b2, salt = salt2 → a = a2 → b = b2 →
      make_rng_salted salt a b = make_rng_salted salt2 a2 b2 := by
  have hseed : seedOfSalted salt a b < 2 ^ 32 := by
    have : (2 : Nat) ^ 32 = M32 := by norm_num [M32]
    rw [this]
    exact Nat.mod_lt _ (by norm_num [M32])
  refine ⟨rfl, rfl, ?_, ?_, ?_, rfl, ?_⟩
  · exact Nat.xor_lt_two_pow hseed (by norm_num)
  · exact Nat.xor_lt_two_pow hseed (by norm_num)
  · intro h
    have := Nat.xor_right_inj.mp h
    norm_num at this
  · intro salt2 a2 b2 h1 h2 h3
    rw [h1, h2, h3]

/-- Witness for C4 at the concrete inputs `("CHAOS_LEAGUE_2026", "alpha",
"beta")`: determinism instantiated, plus distinctness of the two derived
sub-seeds. -/
theorem C4_witness :
    make_rng_salted "CHAOS_LEAGUE_2026" "alpha" "beta" =
      make_rng_salted "CHAOS_LEAGUE_2026" "alpha" "beta" ∧
    (make_rng_salted "CHAOS_LEAGUE_2026" "alpha" "beta").1 ≠
      (make_rng_salted "CHAOS_LEAGUE_2026" "alpha" "beta").2 :=
  ⟨(C4_stream_derivation_scheme "CHAOS_LEAGUE_2026" "alpha" "beta").2.2.2.2.2.2
      "CHAOS_LEAGUE_2026" "alpha" "beta" rfl rfl rfl,
   (C4_stream_derivation_scheme "CHAOS_LEAGUE_2026" "alpha" "beta").2.2.2.2.1⟩

/-- C7: the state view the engine builds for a side is a function only of
the round index, the opponent's last visible move, the side's own last
real move, and the opponent's bucket label: two engine states differing
only in the opponent's exact token count (same bucket), the opponent's
hidden real move (same visible move), or any other field, yield the same
view for both the move-production and the shadow-request call (the same
`state_a` object is passed to both in `run_match`). -/
theorem C7_state_view_hiding :
    ∀ (i : Nat) (sa sa2 sb sb2 : SideState),
      sa.lastReal = sa2.lastReal →
      sb.lastVisible = sb2.lastVisible →
      deception_bucket sb.tokens = deception_bucket sb2.tokens →
      state_for_A i sa sb = state_for_A i sa2 sb2 := by
  intro i sa sa2 sb sb2 h1 h2 h3
  unfold state_for_A
  rw [h1, h2, h3]

/-- Witness for C7: the opponent holding 35 tokens with hidden real move
SPOCK and the opponent holding 21 tokens with hidden real move LIZARD —
same `MEDIUM` bucket, same visible ROCK — produce identical views. -/
theorem C7_witness :
    state_for_A 7 ⟨3, 50, 0, some Move.PAPER, some Move.PAPER, 0⟩
        ⟨-3, 35, 15, some Move.SPOCK, some Move.ROCK, 4⟩ =
      state_for_A 7 ⟨3, 50, 0, some Move.PAPER, some Move.PAPER, 0⟩
        ⟨0, 21, 29, some Move.LIZARD, some Move.ROCK, 9⟩ :=
  C7_state_view_hiding 7 ⟨3, 50, 0, some Move.PAPER, some Move.PAPER, 0⟩
    ⟨3, 50, 0, some Move.PAPER, some Move.PAPER, 0⟩
    ⟨-3, 35, 15, some Move.SPOCK, some Move.ROCK, 4⟩
    ⟨0, 21, 29, some Move.LIZARD, some Move.ROCK, 9⟩ rfl rfl rfl

/-- C3 counterexample: the claim "exactly one rejection draw is consumed
iff the shadow request returned `wantsShadow = true` and the token pool
is positive" is false at the concrete input where the request returned
`(True, None)` with 50 tokens: the gate consumes **zero** draws (the
cursor stays at 0), because the code additionally requires
`shadow_move is not None`. -/
theorem C3_counterexample_none_move_skips_draw :
    shadow_gate SHADOW_REJECT_PROB (fun _ => (1 : ℚ) / 2) true PyVal.vNone
        Move.ROCK 50 0 0 = .ok ⟨Move.ROCK, 50, 0, false, 0⟩ ∧
    (0 : Int) < 50 := ⟨rfl, by decide⟩

/-- C3 (amended): exactly one uniform draw is consumed from the side's
stream by the shadow gate iff the request returned `wantsShadow = true`,
the pool is positive, **and the proposed shadow move is not the absent
sentinel (`None`)**; zero draws otherwise; and the draw is consumed even
when the trial rejects the shadow. -/
theorem C3_rejection_draw_iff_request_tokens_and_move :
    ∀ (p : ℚ) (stream : Nat → ℚ) (req : Bool) (mv : PyVal) (real : Move)
      (t u : Int) (c : Nat) (g : GateOut),
      shadow_gate p stream req mv real t u c = .ok g →
      (g.cursor = c + 1 ↔ (req = true ∧ 0 < t ∧ mv ≠ PyVal.vNone)) ∧
      (¬(req = true ∧ 0 < t ∧ mv ≠ PyVal.vNone) → g.cursor = c) ∧
      ((req = true ∧ 0 < t ∧ mv ≠ PyVal.vNone) ∧ ¬ p < stream c →
        g.flag = false ∧ g.cursor = c + 1) := by
  intro p stream req mv real t u c g h
  have spec := shadow_gate_ok_spec h
  rcases shadow_gate_ok_cases h with ⟨hc, rfl⟩ | ⟨hc, hp, rfl⟩ | ⟨hc, hp, m, hv, rfl⟩
  · exact ⟨spec.1, fun _ => rfl, fun hx => absurd hx.1 hc⟩
  · exact ⟨spec.1, fun hx => absurd hc hx, fun _ => ⟨rfl, rfl⟩⟩
  · exact ⟨spec.1, fun hx => absurd hc hx, fun hx => absurd hp hx.2⟩

/-- Witness for C3: a request `(True, PAPER)` with 50 tokens, rejection
probability 1/10 and a draw of 1/2 — the gate accepts and exactly one
draw is consumed (cursor 0 → 1). -/
theorem C3_witness :
    ((GateOut.mk Move.PAPER 49 1 true 1).cursor = 0 + 1 ↔
      (true = true ∧ (0 : Int) < 50 ∧ PyVal.vMove Move.PAPER ≠ PyVal.vNone)) ∧
    (¬(true = true ∧ (0 : Int) < 50 ∧ PyVal.vMove Move.PAPER ≠ PyVal.vNone) →
      (GateOut.mk Move.PAPER 49 1 true 1).cursor = 0) ∧
    ((true = true ∧ (0 : Int) < 50 ∧ PyVal.vMove Move.PAPER ≠ PyVal.vNone) ∧
      ¬ (1 : ℚ) / 10 < (fun _ : Nat => (1 : ℚ) / 2) 0 →
      (GateOut.mk Move.PAPER 49 1 true 1).flag = false ∧
      (GateOut.mk Move.PAPER 49 1 true 1).cursor = 0 + 1) :=
  C3_rejection_draw_iff_request_tokens_and_move ((1 : ℚ) / 10)
    (fun _ => (1 : ℚ) / 2) true (.vMove Move.PAPER) Move.ROCK 50 0 0
    ⟨Move.PAPER, 49, 1, true, 1⟩ (by
      unfold shadow_gate
      rw [if_pos (by decide), if_pos (by norm_num)]
      rfl)

/-- C6: in every round, each side's token counter never increases,
stays non-negative, and the round record carries a shadow-used flag for a
side only if that side's pool was positive when the gate was evaluated;
consequently over any full run the pools remain within `[0, initial]`. -/
theorem C6_token_pool_invariants :
    (∀ (p : ℚ) (sA sB : Nat → ℚ) (botA botB : BotSpec) (i : Nat)
        (sa sb : SideState) out,
      round_step p sA sB botA botB i sa sb = .ok out →
      out.1.tokens ≤ sa.tokens ∧ (0 ≤ sa.tokens → 0 ≤ out.1.tokens) ∧
      (out.2.2.aShadow = true → 0 < sa.tokens) ∧
      out.2.1.tokens ≤ sb.tokens ∧ (0 ≤ sb.tokens → 0 ≤ out.2.1.tokens) ∧
      (out.2.2.bShadow = true → 0 < sb.tokens)) ∧
    (∀ (p : ℚ) (sA sB : Nat → ℚ) (botA botB : BotSpec) (n i : Nat)
        (sa sb : SideState) out,
      run_rounds p sA sB botA botB n i sa sb = .ok out →
      out.1.tokens ≤ sa.tokens ∧ (0 ≤ sa.tokens → 0 ≤ out.1.tokens) ∧
      out.2.1.tokens ≤ sb.tokens ∧ (0 ≤ sb.tokens → 0 ≤ out.2.1.tokens)) := by
  constructor
  · intro p sA sB botA botB i sa sb out h
    obtain ⟨rvA, rvB, realA, realB, prA, prB, gA, gB, d,
      _, _, _, _, _, _, h7, h8, _, rfl⟩ := round_step_ok_inv h
    have specA := shadow_gate_ok_spec h7
    have specB := shadow_gate_ok_spec h8
    exact ⟨specA.2.2.2.1, specA.2.2.2.2, fun hf => (specA.2.1 hf).1,
      specB.2.2.2.1, specB.2.2.2.2, fun hf => (specB.2.1 hf).1⟩
  · intro p sA sB botA botB n i sa sb out h
    have t := run_rounds_tokens n i sa sb out h
    exact ⟨t.1, t.2.1, t.2.2.1, t.2.2.2⟩

/-- Witness for C6: one concrete round between two always-timing-out
strategies starting from the initial state. -/
theorem C6_witness :
    ((⟨0, 50, 0, some Move.ROCK, some Move.ROCK, 0⟩ : SideState),
     (⟨0, 50, 0, some Move.ROCK, some Move.ROCK, 0⟩ : SideState),
     (⟨1, Move.ROCK, Move.ROCK, Move.ROCK, Move.ROCK, false, false,
       "HIGH", "HIGH"⟩ : RoundRecord)).1.tokens ≤ initSide.tokens :=
  (C6_token_pool_invariants.1 ((1 : ℚ) / 10) (fun _ => (1 : ℚ) / 2)
    (fun _ => (1 : ℚ) / 2) timeoutBot timeoutBot 1 initSide initSide
    (⟨0, 50, 0, some Move.ROCK, some Move.ROCK, 0⟩,
     ⟨0, 50, 0, some Move.ROCK, some Move.ROCK, 0⟩,
     ⟨1, Move.ROCK, Move.ROCK, Move.ROCK, Move.ROCK, false, false,
       "HIGH", "HIGH"⟩) rfl).1

/-- C8 counterexample: the claim that the guard substitutes the default
on "a return value failing the expected output shape" is false — a
non-dict return value passes through `safe_play` unchanged (and then
makes the engine's `out.get(...)` raise, aborting the round). -/
theorem C8_counterexample_shape_not_defaulted :
    safe_play (.ok (.notDict (.vInt 7))) = .notDict (.vInt 7) ∧
    PlayResult.notDict (.vInt 7) ≠ .dict [("real_move", .vMove DEFAULT_MOVE)] ∧
    dict_get (safe_play (.ok (.notDict (.vInt 7)))) "real_move"
      (.vMove DEFAULT_MOVE) =
      .error "AttributeError: object has no attribute get" :=
  ⟨rfl, by decide, rfl⟩

/-- C8 (amended): the guard substitutes the fixed default result on a
raised fault or on exceeding the budget (but does **not** shape-check a
returned value); a strategy whose move production always times out plays
the default move every round and the match still completes all `R`
rounds. -/
theorem C8_guard_defaults_on_fault_or_timeout :
    safe_play .raises = .dict [("real_move", .vMove DEFAULT_MOVE)] ∧
    safe_play .timesOut = .dict [("real_move", .vMove DEFAULT_MOVE)] ∧
    safe_shadow .raises = .vPair false .vNone ∧
    safe_shadow .timesOut = .vPair false .vNone ∧
    ∀ (R : Nat) (p : ℚ) (sA sB : Nat → ℚ), ∃ res,
      run_match p sA sB R timeoutBot timeoutBot = .ok res ∧
      res.records.length = R ∧
      ∀ r ∈ res.records, r.aReal = DEFAULT_MOVE ∧ r.bReal = DEFAULT_MOVE := by
  refine ⟨rfl, rfl, rfl, rfl, ?_⟩
  intro R p sA sB
  have hA1 : ∀ st, dict_get (safe_play (timeoutBot.play st)) "real_move"
      (.vMove DEFAULT_MOVE) = .ok (.vMove DEFAULT_MOVE) := fun _ => rfl
  have hA2 : ∀ st, unpack_pair (safe_shadow (timeoutBot.shadow st)) =
      .ok (false, .vNone) := fun _ => rfl
  obtain ⟨saF, sbF, recs, hrun, hlen, _, _, hall⟩ :=
    run_rounds_default p sA sB timeoutBot timeoutBot hA1 hA2 hA1 hA2
      R 1 initSide initSide
  exact ⟨⟨saF, sbF, recs⟩, by simp [run_match, hrun], hlen, hall⟩

/-- C10: a play output dict lacking the `"real_move"` key silently
yields `MOVES[0] = ROCK` (via `out.get("real_move", MOVES[0])`), which
passes validation; a whole match between two such strategies completes
every round normally, scoring and logging ROCK for both sides. -/
theorem C10_missing_real_move_defaults_to_rock :
    (∀ entries, pyLookup entries "real_move" = none →
      dict_get (.dict entries) "real_move" (.vMove DEFAULT_MOVE) =
        .ok (.vMove DEFAULT_MOVE) ∧
      validate_move (.vMove DEFAULT_MOVE) = .ok Move.ROCK ∧
      DEFAULT_MOVE = Move.ROCK) ∧
    ∀ (R : Nat) (p : ℚ) (sA sB : Nat → ℚ), ∃ res,
      run_match p sA sB R noKeyBot noKeyBot = .ok res ∧
      res.records.length = R ∧ res.finalA.score = 0 ∧ res.finalB.score = 0 ∧
      ∀ r ∈ res.records, r.aReal = Move.ROCK ∧ r.bReal = Move.ROCK := by
  constructor
  · intro entries hnone
    exact ⟨by simp [dict_get, hnone], rfl, rfl⟩
  · intro R p sA sB
    have hA1 : ∀ st, dict_get (safe_play (noKeyBot.play st)) "real_move"
        (.vMove DEFAULT_MOVE) = .ok (.vMove DEFAULT_MOVE) := fun _ => rfl
    have hA2 : ∀ st, unpack_pair (safe_shadow (noKeyBot.shadow st)) =
        .ok (false, .vNone) := fun _ => rfl
    obtain ⟨saF, sbF, recs, hrun, hlen, hsaF, hsbF, hall⟩ :=
      run_rounds_default p sA sB noKeyBot noKeyBot hA1 hA2 hA1 hA2
        R 1 initSide initSide
    exact ⟨⟨saF, sbF, recs⟩, by simp [run_match, hrun], hlen, hsaF, hsbF, hall⟩

/-- Witness for C10 at the concrete empty dict. -/
theorem C10_witness :
    dict_get (.dict []) "real_move" (.vMove DEFAULT_MOVE) =
      .ok (.vMove DEFAULT_MOVE) ∧
    validate_move (.vMove DEFAULT_MOVE) = .ok Move.ROCK ∧
    DEFAULT_MOVE = Move.ROCK :=
  C10_missing_real_move_defaults_to_rock.1 [] rfl

set_option maxRecDepth 1000000 in
/-- C1 (code bug): the replay metadata `run_match` persists contains no
`"seed"` key, so for **every** match `validate_match_replay` seeds its
two replay streams from the constant strings `"42_a"` and `"42_b"` —
independent of the bot identity pair and of the salt — whereas the match
engine's `make_rng` derives its two streams from the SHA-256 hash of the
ordered identity pair and the salt, which does depend on the identities.
The replay streams therefore do not reproduce the streams the bots
consumed. -/
theorem C1_replay_rng_not_rederived_from_identities :
    (∀ (nameA nameB : String) (scoreA scoreB usedA usedB : Int) (lg : String),
      pyLookup (replay_meta_of nameA nameB scoreA scoreB usedA usedB lg)
        "seed" = none ∧
      replay_seed_strings (replay_meta_of nameA nameB scoreA scoreB usedA usedB lg) =
        ("42_a", "42_b")) ∧
    make_rng "alpha" "beta" ≠ make_rng "gamma" "delta" := by
  refine ⟨fun nameA nameB scoreA scoreB usedA usedB lg => ⟨rfl, rfl⟩, ?_⟩
  decide

/-- C2 (code bug): the token bookkeeping of `validate_match_replay` is
driven by a `"shadow"` key read from the **replayed play outputs**, not
by the logged shadow-used flags.  First conjunct: a logged round with
side A's shadow flag set, replayed with ordinary play outputs (which
carry no `"shadow"` key), leaves both counters at 50 — the claim requires
a decrement to 49.  Second conjunct: a play output carrying
`"shadow": True` decrements the counter even though the logged flag is
`False`. -/
theorem C2_replay_token_bookkeeping_ignores_logged_flags :
    (LogEntry.mk "bots" "ref" "ROCK" "PAPER" "SCISSORS" "PAPER"
        true false "HIGH" "HIGH").a_shadow = true ∧
    replay_round
      ⟨"bots", "ref", "ROCK", "PAPER", "SCISSORS", "PAPER",
        true, false, "HIGH", "HIGH"⟩
      (.dict [("real_move", .vMove Move.ROCK)])
      (.dict [("real_move", .vMove Move.PAPER)]) 50 50 = .ok (50, 50) ∧
    replay_round
      ⟨"bots", "ref", "ROCK", "PAPER", "SCISSORS", "PAPER",
        false, false, "HIGH", "HIGH"⟩
      (.dict [("real_move", .vMove Move.ROCK), ("shadow", .vBool true)])
      (.dict [("real_move", .vMove Move.PAPER)]) 50 50 = .ok (49, 50) :=
  ⟨rfl, rfl, rfl⟩

end ChaosLeague

